import Mathlib

/-!
Shallow embedding of the `client` package's resource-metadata cache
(`clientCache`, `resourceMeta`, `objMeta` and their operations), together
with proofs of its specified properties.

Go maps are modelled as association lists where an insert conses the new
binding in front, so a lookup sees the newest binding — the same
observable behaviour as a Go map write.  The external collaborators
(`apiutil.GVKForObject`, `apiutil.RESTClientForGVK`,
`apiutil.RESTUnstructuredClientForGVK`, `meta.RESTMapper.RESTMapping`),
which the spec calls TypeResolver and TransportFactory, are modelled as an
environment of deterministic functions carried inside the cache, exactly
as the Go struct carries `config`, `scheme`, `mapper` and `codecs`.
-/

namespace Client

/-- schema.GroupVersionKind: the group/version/kind triple identifying an API type. -/
structure GroupVersionKind where
  group : String
  version : String
  kind : String
deriving DecidableEq, Repr

/-- schema.GroupKind, as produced by GroupVersionKind.GroupKind(). -/
structure GroupKind where
  group : String
  kind : String
deriving DecidableEq, Repr

/-- GroupVersionKind.GroupKind() drops the version. -/
def GroupVersionKind.groupKind (gvk : GroupVersionKind) : GroupKind :=
  { group := gvk.group, kind := gvk.kind }

/-- meta.RESTScopeNameRoot: the name of the cluster (root) scope. -/
def RESTScopeNameRoot : String := "root"

/-- meta.RESTMapping: the resource (wire path segment) and the scope, recorded by
its Name() string, which is all this package consults. -/
structure RESTMapping where
  resource : String
  scopeName : String
deriving DecidableEq, Repr

/-- rest.Interface: an opaque REST client handle. -/
structure RestInterface where
  id : Nat
deriving DecidableEq, Repr

/-- Errors returned by the external collaborators; carried opaquely. -/
abbrev Err := String

/-- v1.Object: the instance-metadata accessor returned by meta.Accessor; opaque here. -/
structure V1Object where
  id : Nat
deriving DecidableEq, Repr

/-- resourceMeta caches state for a Kubernetes type: the rest client (embedded
`rest.Interface`), the GroupVersionKind, and the rest mapping. -/
structure resourceMeta where
  Interface : RestInterface
  gvk : GroupVersionKind
  mapping : RESTMapping
deriving DecidableEq, Repr

instance {ε α : Type} [DecidableEq ε] [DecidableEq α] : DecidableEq (Except ε α) := fun a b =>
  match a, b with
  | .error e, .error f =>
      if h : e = f then isTrue (congrArg Except.error h)
      else isFalse (fun hh => h (Except.error.inj hh))
  | .error _, .ok _ => isFalse (fun hh => Except.noConfusion hh)
  | .ok _, .error _ => isFalse (fun hh => Except.noConfusion hh)
  | .ok x, .ok y =>
      if h : x = y then isTrue (congrArg Except.ok h)
      else isFalse (fun hh => h (Except.ok.inj hh))

/-- runtime.Object, as observed by this package: its reflect.TypeOf identity, the
GVK declared by GetObjectKind().GroupVersionKind(), whether meta.IsListType holds,
whether it is a *unstructured.Unstructured or *unstructured.UnstructuredList, and
the result of meta.Accessor on it. -/
structure Object where
  typeId : Nat
  objectKindGVK : GroupVersionKind
  isListType : Bool
  isUnstructured : Bool
  isUnstructuredList : Bool
  accessor : Except Err V1Object
deriving DecidableEq, Repr

/-- The external collaborators, bundled: apiutil.GVKForObject over the scheme,
the two apiutil client constructors over the rest.Config and codecs, and the
RESTMapper.  These are deterministic: the same argument gives the same result. -/
structure Env where
  gvkForObject : Object → Except Err GroupVersionKind
  restClientForGVK : GroupVersionKind → Except Err RestInterface
  restUnstructuredClientForGVK : GroupVersionKind → Except Err RestInterface
  restMapping : GroupKind → String → Except Err RESTMapping

/-- clientCache creates and caches rest clients and metadata for Kubernetes types:
the immutable collaborators plus the two independent tables. -/
structure clientCache where
  env : Env
  resourceByType : List (Nat × resourceMeta)
  unstructuredResourceByGVK : List (GroupVersionKind × resourceMeta)

/-- Lookup in the association-list model of a Go map. -/
def findEntry {K V : Type} [DecidableEq K] (k : K) : List (K × V) → Option V
  | [] => none
  | (k2, v) :: rest => if k2 = k then some v else findEntry k rest

/-- strings.HasSuffix, on the character data. -/
def hasSuffix (s suffix : String) : Bool :=
  List.isSuffixOf suffix.data s.data

/-- newResource maps obj to a Kubernetes Resource and constructs a client for that
Resource.  If the object is a list, the resource represents the item's type
instead: `gvk.Kind = gvk.Kind[:len(gvk.Kind)-4]` is the character-data prefix
dropping the four characters of "List". -/
def newResource (c : clientCache) (obj : Object) (isUnstructured : Bool) :
    Except Err resourceMeta := do
  let gvk0 ← c.env.gvkForObject obj
  let gvk :=
    if hasSuffix gvk0.kind "List" && obj.isListType then
      { gvk0 with kind := ⟨gvk0.kind.data.take (gvk0.kind.data.length - 4)⟩ }
    else gvk0
  let client ←
    if isUnstructured then c.env.restUnstructuredClientForGVK gvk
    else c.env.restClientForGVK gvk
  let mapping ← c.env.restMapping gvk.groupKind gvk.version
  return { Interface := client, mapping := mapping, gvk := gvk }

/-- getUnstructuredResourceByGVK: read-locked probe of the GVK table keyed by the
declared GVK; on hit return the cached record; on miss, under the write lock,
construct via newResource and unconditionally insert.  The cache state is threaded
explicitly; an error leaves it unchanged. -/
def getUnstructuredResourceByGVK (c : clientCache) (obj : Object) :
    Except Err resourceMeta × clientCache :=
  match findEntry obj.objectKindGVK c.unstructuredResourceByGVK with
  | some r => (.ok r, c)
  | none =>
      match newResource c obj true with
      | .error e => (.error e, c)
      | .ok r =>
          (.ok r, { c with unstructuredResourceByGVK :=
              (obj.objectKindGVK, r) :: c.unstructuredResourceByGVK })

/-- getResourceByType: same two-phase protocol against the type table, keyed by
reflect.TypeOf(obj). -/
def getResourceByType (c : clientCache) (obj : Object) :
    Except Err resourceMeta × clientCache :=
  match findEntry obj.typeId c.resourceByType with
  | some r => (.ok r, c)
  | none =>
      match newResource c obj false with
      | .error e => (.error e, c)
      | .ok r =>
          (.ok r, { c with resourceByType := (obj.typeId, r) :: c.resourceByType })

/-- getResource returns the resource meta information for the given type of
object, dispatching on whether it is *unstructured.Unstructured or
*unstructured.UnstructuredList. -/
def getResource (c : clientCache) (obj : Object) :
    Except Err resourceMeta × clientCache :=
  if obj.isUnstructured || obj.isUnstructuredList then
    getUnstructuredResourceByGVK c obj
  else
    getResourceByType c obj

/-- objMeta stores type information and instance metadata for a Kubernetes object. -/
structure objMeta where
  resourceMeta : resourceMeta
  Object : V1Object
deriving DecidableEq, Repr

/-- getObjMeta returns objMeta containing both type and object metadata and state. -/
def getObjMeta (c : clientCache) (obj : Object) : Except Err objMeta × clientCache :=
  match getResource c obj with
  | (.error e, c2) => (.error e, c2)
  | (.ok r, c2) =>
      match obj.accessor with
      | .error e => (.error e, c2)
      | .ok m => (.ok { resourceMeta := r, Object := m }, c2)

/-- isNamespaced returns true if the type is namespaced. -/
def resourceMeta.isNamespaced (r : resourceMeta) : Bool :=
  if r.mapping.scopeName = RESTScopeNameRoot then false else true

/-- resource returns the resource name of the type. -/
def resourceMeta.resource (r : resourceMeta) : String :=
  r.mapping.resource

/-- Whether getResource takes the GVK path: the object is a dynamic/untyped
object or a list-of-dynamic container. -/
def isSchemaless (obj : Object) : Bool :=
  obj.isUnstructured || obj.isUnstructuredList

/-- Resolve a whole sequence of objects, threading the cache state. -/
def runResolveAll (c : clientCache) : List Object → clientCache
  | [] => c
  | obj :: rest => runResolveAll (getResource c obj).2 rest

/-! ### Two-thread interleaving model of the accepted construction race

getResourceByType performs two atomic sections: the read-locked probe, and the
write-locked critical section that constructs via newResource and inserts (the
write lock is held across construction and insert, so that is one atomic
step).  Two threads resolve objects o1 and o2 against the same shared cache;
a schedule is the order their atomic sections run in. -/

inductive RaceStep where
  | probe1 | crit1 | probe2 | crit2
deriving DecidableEq, Repr

structure RaceState where
  cache : clientCache
  missed1 : Bool
  result1 : Option (Except Err resourceMeta)
  missed2 : Bool
  result2 : Option (Except Err resourceMeta)

def raceStep (o1 o2 : Object) (s : RaceState) : RaceStep → RaceState
  | .probe1 =>
      if s.result1.isSome then s else
      match findEntry o1.typeId s.cache.resourceByType with
      | some r => { s with result1 := some (.ok r) }
      | none => { s with missed1 := true }
  | .crit1 =>
      if s.result1.isSome || !s.missed1 then s else
      match newResource s.cache o1 false with
      | .error e => { s with result1 := some (.error e) }
      | .ok r => { s with
          result1 := some (.ok r)
          cache := { s.cache with
            resourceByType := (o1.typeId, r) :: s.cache.resourceByType } }
  | .probe2 =>
      if s.result2.isSome then s else
      match findEntry o2.typeId s.cache.resourceByType with
      | some r => { s with result2 := some (.ok r) }
      | none => { s with missed2 := true }
  | .crit2 =>
      if s.result2.isSome || !s.missed2 then s else
      match newResource s.cache o2 false with
      | .error e => { s with result2 := some (.error e) }
      | .ok r => { s with
          result2 := some (.ok r)
          cache := { s.cache with
            resourceByType := (o2.typeId, r) :: s.cache.resourceByType } }

def initRaceState (c : clientCache) : RaceState :=
  { cache := c, missed1 := false, result1 := none, missed2 := false, result2 := none }

def runRace (o1 o2 : Object) (c : clientCache) (sched : List RaceStep) : RaceState :=
  sched.foldl (raceStep o1 o2) (initRaceState c)

/-- All interleavings of the two threads' two atomic sections (a probe always
precedes its own critical section; a thread that hit skips its critical
section, which raceStep renders a no-op). -/
def raceSchedules : List (List RaceStep) :=
  [[.probe1, .probe2, .crit1, .crit2],
   [.probe1, .probe2, .crit2, .crit1],
   [.probe2, .probe1, .crit1, .crit2],
   [.probe2, .probe1, .crit2, .crit1],
   [.probe1, .crit1, .probe2, .crit2],
   [.probe2, .crit2, .probe1, .crit1]]

/-! ### Concrete instances used by the witnesses -/

def mappingW : RESTMapping := { resource := "widgets", scopeName := "namespace" }

def envW : Env where
  gvkForObject o := .ok o.objectKindGVK
  restClientForGVK _ := .ok { id := 1 }
  restUnstructuredClientForGVK _ := .ok { id := 2 }
  restMapping _ _ := .ok mappingW

def envFail : Env where
  gvkForObject _ := .error "no kind is registered"
  restClientForGVK _ := .ok { id := 1 }
  restUnstructuredClientForGVK _ := .ok { id := 2 }
  restMapping _ _ := .ok mappingW

def gvkWidget : GroupVersionKind := { group := "apps", version := "v1", kind := "Widget" }

def gvkWidgetList : GroupVersionKind :=
  { group := "apps", version := "v1", kind := "WidgetList" }

def objWidget : Object where
  typeId := 1
  objectKindGVK := gvkWidget
  isListType := false
  isUnstructured := false
  isUnstructuredList := false
  accessor := .ok { id := 7 }

def objWidgetB : Object where
  typeId := 1
  objectKindGVK := gvkWidget
  isListType := false
  isUnstructured := false
  isUnstructuredList := false
  accessor := .ok { id := 8 }

def objWidgetU : Object where
  typeId := 99
  objectKindGVK := gvkWidget
  isListType := false
  isUnstructured := true
  isUnstructuredList := false
  accessor := .ok { id := 9 }

def objWidgetListU : Object where
  typeId := 99
  objectKindGVK := gvkWidgetList
  isListType := true
  isUnstructured := false
  isUnstructuredList := true
  accessor := .ok { id := 10 }

def objNoAccessor : Object where
  typeId := 2
  objectKindGVK := gvkWidget
  isListType := false
  isUnstructured := false
  isUnstructuredList := false
  accessor := .error "object does not implement the metadata interfaces"

def rWidgetT : resourceMeta :=
  { Interface := { id := 1 }, gvk := gvkWidget, mapping := mappingW }

def rWidgetU : resourceMeta :=
  { Interface := { id := 2 }, gvk := gvkWidget, mapping := mappingW }

def cEmpty : clientCache :=
  { env := envW, resourceByType := [], unstructuredResourceByGVK := [] }

def cPrimed : clientCache :=
  { env := envW, resourceByType := [(1, rWidgetT)],
    unstructuredResourceByGVK := [(gvkWidget, rWidgetU)] }

def cFail : clientCache :=
  { env := envFail, resourceByType := [], unstructuredResourceByGVK := [] }

/-! ### Helper lemmas -/

theorem newResource_env_eq (c d : clientCache) (obj : Object) (u : Bool)
    (h : c.env = d.env) : newResource c obj u = newResource d obj u := by
  unfold newResource
  rw [h]

theorem getResourceByType_hit (c : clientCache) (obj : Object) (r : resourceMeta)
    (h : findEntry obj.typeId c.resourceByType = some r) :
    getResourceByType c obj = (.ok r, c) := by
  unfold getResourceByType
  rw [h]

theorem getResourceByType_miss_ok (c : clientCache) (obj : Object) (r : resourceMeta)
    (hm : findEntry obj.typeId c.resourceByType = none)
    (hr : newResource c obj false = .ok r) :
    getResourceByType c obj
      = (.ok r, { c with resourceByType := (obj.typeId, r) :: c.resourceByType }) := by
  unfold getResourceByType
  rw [hm, hr]

theorem getResourceByType_miss_err (c : clientCache) (obj : Object) (e : Err)
    (hm : findEntry obj.typeId c.resourceByType = none)
    (he : newResource c obj false = .error e) :
    getResourceByType c obj = (.error e, c) := by
  unfold getResourceByType
  rw [hm, he]

theorem getUnstructuredResourceByGVK_hit (c : clientCache) (obj : Object)
    (r : resourceMeta)
    (h : findEntry obj.objectKindGVK c.unstructuredResourceByGVK = some r) :
    getUnstructuredResourceByGVK c obj = (.ok r, c) := by
  unfold getUnstructuredResourceByGVK
  rw [h]

theorem getUnstructuredResourceByGVK_miss_ok (c : clientCache) (obj : Object)
    (r : resourceMeta)
    (hm : findEntry obj.objectKindGVK c.unstructuredResourceByGVK = none)
    (hr : newResource c obj true = .ok r) :
    getUnstructuredResourceByGVK c obj
      = (.ok r, { c with unstructuredResourceByGVK :=
          (obj.objectKindGVK, r) :: c.unstructuredResourceByGVK }) := by
  unfold getUnstructuredResourceByGVK
  rw [hm, hr]

theorem getUnstructuredResourceByGVK_miss_err (c : clientCache) (obj : Object)
    (e : Err)
    (hm : findEntry obj.objectKindGVK c.unstructuredResourceByGVK = none)
    (he : newResource c obj true = .error e) :
    getUnstructuredResourceByGVK c obj = (.error e, c) := by
  unfold getUnstructuredResourceByGVK
  rw [hm, he]

theorem findEntry_cons_self {K V : Type} [DecidableEq K] (k : K) (v : V)
    (t : List (K × V)) : findEntry k ((k, v) :: t) = some v := by
  simp [findEntry]

theorem findEntry_cons_ne {K V : Type} [DecidableEq K] (k k2 : K) (v : V)
    (t : List (K × V)) (h : k2 ≠ k) :
    findEntry k ((k2, v) :: t) = findEntry k t := by
  simp [findEntry, h]

/-- After a successful type-path resolution, any later type-path resolution of
the same key returns the identical record and leaves the cache unchanged. -/
theorem getResourceByType_stable (d d2 : clientCache) (o o2 : Object)
    (r : resourceMeta) (hk : o2.typeId = o.typeId)
    (h : getResourceByType d o = (.ok r, d2)) :
    getResourceByType d2 o2 = (.ok r, d2) := by
  unfold getResourceByType at h
  cases hf : findEntry o.typeId d.resourceByType with
  | some r0 =>
      rw [hf] at h
      simp only [Prod.mk.injEq] at h
      obtain ⟨h1, h2⟩ := h
      have hr : r0 = r := Except.ok.inj h1
      rw [← h2, ← hr]
      exact getResourceByType_hit d o2 r0 (by rw [hk]; exact hf)
  | none =>
      rw [hf] at h
      cases hn : newResource d o false with
      | error e => rw [hn] at h; simp at h
      | ok r0 =>
          rw [hn] at h
          simp only [Prod.mk.injEq] at h
          obtain ⟨h1, h2⟩ := h
          have hr : r0 = r := Except.ok.inj h1
          rw [← h2, ← hr]
          exact getResourceByType_hit _ o2 r0
            (by rw [hk]; exact findEntry_cons_self o.typeId r0 d.resourceByType)

/-- After a successful GVK-path resolution, any later GVK-path resolution of
the same key returns the identical record and leaves the cache unchanged. -/
theorem getUnstructuredResourceByGVK_stable (d d2 : clientCache) (o o2 : Object)
    (r : resourceMeta) (hk : o2.objectKindGVK = o.objectKindGVK)
    (h : getUnstructuredResourceByGVK d o = (.ok r, d2)) :
    getUnstructuredResourceByGVK d2 o2 = (.ok r, d2) := by
  unfold getUnstructuredResourceByGVK at h
  cases hf : findEntry o.objectKindGVK d.unstructuredResourceByGVK with
  | some r0 =>
      rw [hf] at h
      simp only [Prod.mk.injEq] at h
      obtain ⟨h1, h2⟩ := h
      have hr : r0 = r := Except.ok.inj h1
      rw [← h2, ← hr]
      exact getUnstructuredResourceByGVK_hit d o2 r0 (by rw [hk]; exact hf)
  | none =>
      rw [hf] at h
      cases hn : newResource d o true with
      | error e => rw [hn] at h; simp at h
      | ok r0 =>
          rw [hn] at h
          simp only [Prod.mk.injEq] at h
          obtain ⟨h1, h2⟩ := h
          have hr : r0 = r := Except.ok.inj h1
          rw [← h2, ← hr]
          exact getUnstructuredResourceByGVK_hit _ o2 r0
            (by rw [hk];
                exact findEntry_cons_self o.objectKindGVK r0 d.unstructuredResourceByGVK)

/-- The type path never touches the GVK table or the environment. -/
theorem getResourceByType_preserves_gvkTable (c : clientCache) (obj : Object) :
    ((getResourceByType c obj).2).unstructuredResourceByGVK
      = c.unstructuredResourceByGVK ∧
    ((getResourceByType c obj).2).env = c.env := by
  unfold getResourceByType
  cases hf : findEntry obj.typeId c.resourceByType with
  | some r => exact ⟨rfl, rfl⟩
  | none =>
      cases hn : newResource c obj false with
      | error e => exact ⟨rfl, rfl⟩
      | ok r => exact ⟨rfl, rfl⟩

/-- The GVK path never touches the type table or the environment. -/
theorem getUnstructuredResourceByGVK_preserves_typeTable (c : clientCache)
    (obj : Object) :
    ((getUnstructuredResourceByGVK c obj).2).resourceByType = c.resourceByType ∧
    ((getUnstructuredResourceByGVK c obj).2).env = c.env := by
  unfold getUnstructuredResourceByGVK
  cases hf : findEntry obj.objectKindGVK c.unstructuredResourceByGVK with
  | some r => exact ⟨rfl, rfl⟩
  | none =>
      cases hn : newResource c obj true with
      | error e => exact ⟨rfl, rfl⟩
      | ok r => exact ⟨rfl, rfl⟩

/-- Dispatch: a schema-less object takes the GVK path. -/
theorem getResource_schemaless (c : clientCache) (obj : Object)
    (h : isSchemaless obj = true) :
    getResource c obj = getUnstructuredResourceByGVK c obj := by
  unfold isSchemaless at h
  unfold getResource
  simp [h]

/-- Dispatch: a typed object takes the type path. -/
theorem getResource_typed (c : clientCache) (obj : Object)
    (h : isSchemaless obj = false) :
    getResource c obj = getResourceByType c obj := by
  unfold isSchemaless at h
  unfold getResource
  simp [h]

/-- Resolution never changes the environment. -/
theorem getResource_env (c : clientCache) (obj : Object) :
    ((getResource c obj).2).env = c.env := by
  unfold getResource
  split
  · exact (getUnstructuredResourceByGVK_preserves_typeTable c obj).2
  · exact (getResourceByType_preserves_gvkTable c obj).2

/-- The type path reads only the environment and the type table, and its
effect on the type table depends only on those. -/
theorem getResourceByType_tables_congr (c d : clientCache) (obj : Object)
    (henv : c.env = d.env) (htab : c.resourceByType = d.resourceByType) :
    (getResourceByType c obj).1 = (getResourceByType d obj).1 ∧
    ((getResourceByType c obj).2).resourceByType
      = ((getResourceByType d obj).2).resourceByType := by
  unfold getResourceByType
  rw [htab, newResource_env_eq c d obj false henv]
  cases hf : findEntry obj.typeId d.resourceByType with
  | some r => exact ⟨rfl, htab⟩
  | none =>
      cases hn : newResource d obj false with
      | error e => exact ⟨rfl, htab⟩
      | ok r => exact ⟨rfl, rfl⟩

/-- The GVK path reads only the environment and the GVK table, and its effect
on the GVK table depends only on those. -/
theorem getUnstructuredResourceByGVK_tables_congr (c d : clientCache)
    (obj : Object) (henv : c.env = d.env)
    (htab : c.unstructuredResourceByGVK = d.unstructuredResourceByGVK) :
    (getUnstructuredResourceByGVK c obj).1
      = (getUnstructuredResourceByGVK d obj).1 ∧
    ((getUnstructuredResourceByGVK c obj).2).unstructuredResourceByGVK
      = ((getUnstructuredResourceByGVK d obj).2).unstructuredResourceByGVK := by
  unfold getUnstructuredResourceByGVK
  rw [htab, newResource_env_eq c d obj true henv]
  cases hf : findEntry obj.objectKindGVK d.unstructuredResourceByGVK with
  | some r => exact ⟨rfl, htab⟩
  | none =>
      cases hn : newResource d obj true with
      | error e => exact ⟨rfl, htab⟩
      | ok r => exact ⟨rfl, rfl⟩

/-- The gvk stored in a successfully constructed record is the resolved gvk,
list-suffix-stripped exactly when the kind ends in "List" and the object is a
list container. -/
theorem newResource_gvk (c : clientCache) (obj : Object) (u : Bool)
    (gvk0 : GroupVersionKind) (r : resourceMeta)
    (hg : c.env.gvkForObject obj = .ok gvk0)
    (hr : newResource c obj u = .ok r) :
    r.gvk = if hasSuffix gvk0.kind "List" && obj.isListType then
        { gvk0 with kind := ⟨gvk0.kind.data.take (gvk0.kind.data.length - 4)⟩ }
      else gvk0 := by
  unfold newResource at hr
  rw [hg] at hr
  simp only [Bind.bind, Except.bind, pure, Except.pure] at hr
  split at hr <;>
  · split at hr
    · simp at hr
    · split at hr
      · simp at hr
      · injection hr with hr
        subst hr
        rfl

/-- newResource only consults the environment, the resolved gvk and the
list-container flag of the object. -/
theorem newResource_congr (c d : clientCache) (o1 o2 : Object) (u : Bool)
    (henv : c.env = d.env)
    (hg : c.env.gvkForObject o2 = c.env.gvkForObject o1)
    (hl : o2.isListType = o1.isListType) :
    newResource d o2 u = newResource c o1 u := by
  unfold newResource
  rw [← henv, hg, hl]

/-- Dropping the last four characters of a string that ends in "List" and
appending "List" again gives the string back. -/
theorem strip_append_List (s : String) (h : hasSuffix s "List" = true) :
    (⟨s.data.take (s.data.length - 4)⟩ : String) ++ "List" = s := by
  unfold hasSuffix at h
  rw [List.isSuffixOf_iff_suffix] at h
  obtain ⟨t, ht⟩ := h
  obtain ⟨data⟩ := s
  have ht2 : t ++ ("List" : String).data = data := ht
  have h4 : ("List" : String).data.length = 4 := rfl
  have hlen : data.length - 4 = t.length := by
    rw [← ht2, List.length_append, h4]
    omega
  show (⟨List.take (data.length - 4) data⟩ : String) ++ "List" = ⟨data⟩
  rw [hlen, ← ht2, List.take_left]
  rfl

/-- Over any sequence of resolutions, the type table depends only on the
typed (non-schema-less) operations. -/
theorem runResolveAll_typed_table (objs : List Object) :
    ∀ c d : clientCache, c.env = d.env → c.resourceByType = d.resourceByType →
    (runResolveAll c objs).resourceByType
      = (runResolveAll d (objs.filter (fun o => !isSchemaless o))).resourceByType := by
  induction objs with
  | nil =>
      intro c d henv htab
      exact htab
  | cons obj rest ih =>
      intro c d henv htab
      by_cases hs : isSchemaless obj = true
      · have hfil : (obj :: rest).filter (fun o => !isSchemaless o)
            = rest.filter (fun o => !isSchemaless o) := by
          simp [List.filter, hs]
        rw [hfil]
        simp only [runResolveAll]
        apply ih
        · rw [getResource_env c obj]
          exact henv
        · rw [getResource_schemaless c obj hs]
          rw [(getUnstructuredResourceByGVK_preserves_typeTable c obj).1]
          exact htab
      · have hs2 : isSchemaless obj = false := by
          cases hval : isSchemaless obj
          · rfl
          · exact absurd hval hs
        have hfil : (obj :: rest).filter (fun o => !isSchemaless o)
            = obj :: rest.filter (fun o => !isSchemaless o) := by
          simp [List.filter, hs2]
        rw [hfil]
        simp only [runResolveAll]
        apply ih
        · rw [getResource_env c obj, getResource_env d obj]
          exact henv
        · rw [getResource_typed c obj hs2, getResource_typed d obj hs2]
          exact (getResourceByType_tables_congr c d obj henv htab).2

/-- Over any sequence of resolutions, the GVK table depends only on the
schema-less operations. -/
theorem runResolveAll_gvk_table (objs : List Object) :
    ∀ c d : clientCache, c.env = d.env →
    c.unstructuredResourceByGVK = d.unstructuredResourceByGVK →
    (runResolveAll c objs).unstructuredResourceByGVK
      = (runResolveAll d (objs.filter (fun o => isSchemaless o))).unstructuredResourceByGVK := by
  induction objs with
  | nil =>
      intro c d henv htab
      exact htab
  | cons obj rest ih =>
      intro c d henv htab
      by_cases hs : isSchemaless obj = true
      · have hfil : (obj :: rest).filter (fun o => isSchemaless o)
            = obj :: rest.filter (fun o => isSchemaless o) := by
          simp [List.filter, hs]
        rw [hfil]
        simp only [runResolveAll]
        apply ih
        · rw [getResource_env c obj, getResource_env d obj]
          exact henv
        · rw [getResource_schemaless c obj hs, getResource_schemaless d obj hs]
          exact (getUnstructuredResourceByGVK_tables_congr c d obj henv htab).2
      · have hs2 : isSchemaless obj = false := by
          cases hval : isSchemaless obj
          · rfl
          · exact absurd hval hs
        have hfil : (obj :: rest).filter (fun o => isSchemaless o)
            = rest.filter (fun o => isSchemaless o) := by
          simp [List.filter, hs2]
        rw [hfil]
        simp only [runResolveAll]
        apply ih
        · rw [getResource_env c obj]
          exact henv
        · rw [getResource_typed c obj hs2]
          rw [(getResourceByType_preserves_gvkTable c obj).1]
          exact htab

/-! ### Claims -/

/-- C1: for a key already present in the corresponding table, the type-path and
GVK-path resolutions return the cached record with the cache unchanged, the
result is independent of the external collaborators (no TypeResolver or
TransportFactory call is observable), and after any successful resolution every
later resolution of the same key returns the identical resourceMeta record
(hence identical resourceName, isNamespaced and GVK). -/
theorem C1_hit_returns_cached (c : clientCache) (objT objG : Object)
    (rT rG : resourceMeta)
    (hT : findEntry objT.typeId c.resourceByType = some rT)
    (hG : findEntry objG.objectKindGVK c.unstructuredResourceByGVK = some rG) :
    getResourceByType c objT = (.ok rT, c) ∧
    getUnstructuredResourceByGVK c objG = (.ok rG, c) ∧
    (∀ e : Env, getResourceByType { c with env := e } objT
        = (.ok rT, { c with env := e })) ∧
    (∀ e : Env, getUnstructuredResourceByGVK { c with env := e } objG
        = (.ok rG, { c with env := e })) ∧
    (∀ (d d2 : clientCache) (o o2 : Object) (r : resourceMeta),
        o2.typeId = o.typeId →
        getResourceByType d o = (.ok r, d2) →
        getResourceByType d2 o2 = (.ok r, d2)) ∧
    (∀ (d d2 : clientCache) (o o2 : Object) (r : resourceMeta),
        o2.objectKindGVK = o.objectKindGVK →
        getUnstructuredResourceByGVK d o = (.ok r, d2) →
        getUnstructuredResourceByGVK d2 o2 = (.ok r, d2)) := by
  refine ⟨getResourceByType_hit c objT rT hT,
    getUnstructuredResourceByGVK_hit c objG rG hG,
    fun e => getResourceByType_hit _ objT rT hT,
    fun e => getUnstructuredResourceByGVK_hit _ objG rG hG,
    fun d d2 o o2 r hk h => getResourceByType_stable d d2 o o2 r hk h,
    fun d d2 o o2 r hk h => getUnstructuredResourceByGVK_stable d d2 o o2 r hk h⟩

/-- Witness for C1: a cache already holding Widget entries in both tables
returns them unchanged. -/
theorem C1_hit_returns_cached_witness :
    findEntry objWidget.typeId cPrimed.resourceByType = some rWidgetT ∧
    findEntry objWidgetU.objectKindGVK cPrimed.unstructuredResourceByGVK
      = some rWidgetU ∧
    getResourceByType cPrimed objWidget = (.ok rWidgetT, cPrimed) ∧
    getUnstructuredResourceByGVK cPrimed objWidgetU = (.ok rWidgetU, cPrimed) := by
  have h := C1_hit_returns_cached cPrimed objWidget objWidgetU rWidgetT rWidgetU
    (by decide) (by decide)
  exact ⟨by decide, by decide, h.1, h.2.1⟩

/-- C2: on a miss, both paths construct via the shared newResource,
unconditionally insert the new record under the key, and return exactly the
record that was inserted; the inserted record is immediately visible under the
key. -/
theorem C2_miss_constructs_inserts_returns (c : clientCache) (objT objG : Object)
    (rT rG : resourceMeta)
    (hmT : findEntry objT.typeId c.resourceByType = none)
    (hcT : newResource c objT false = .ok rT)
    (hmG : findEntry objG.objectKindGVK c.unstructuredResourceByGVK = none)
    (hcG : newResource c objG true = .ok rG) :
    getResourceByType c objT
      = (.ok rT, { c with resourceByType := (objT.typeId, rT) :: c.resourceByType }) ∧
    getUnstructuredResourceByGVK c objG
      = (.ok rG, { c with unstructuredResourceByGVK :=
          (objG.objectKindGVK, rG) :: c.unstructuredResourceByGVK }) ∧
    findEntry objT.typeId ((getResourceByType c objT).2).resourceByType = some rT ∧
    findEntry objG.objectKindGVK
        ((getUnstructuredResourceByGVK c objG).2).unstructuredResourceByGVK
      = some rG := by
  have h1 := getResourceByType_miss_ok c objT rT hmT hcT
  have h2 := getUnstructuredResourceByGVK_miss_ok c objG rG hmG hcG
  refine ⟨h1, h2, ?_, ?_⟩
  · rw [h1]
    exact findEntry_cons_self objT.typeId rT c.resourceByType
  · rw [h2]
    exact findEntry_cons_self objG.objectKindGVK rG c.unstructuredResourceByGVK

/-- Witness for C2: first-time resolutions on the empty cache construct,
insert and return the Widget records. -/
theorem C2_miss_constructs_inserts_returns_witness :
    findEntry objWidget.typeId cEmpty.resourceByType = none ∧
    newResource cEmpty objWidget false = .ok rWidgetT ∧
    findEntry objWidgetU.objectKindGVK cEmpty.unstructuredResourceByGVK = none ∧
    newResource cEmpty objWidgetU true = .ok rWidgetU ∧
    getResourceByType cEmpty objWidget
      = (.ok rWidgetT,
          { cEmpty with resourceByType := [(objWidget.typeId, rWidgetT)] }) := by
  have h := C2_miss_constructs_inserts_returns cEmpty objWidget objWidgetU
    rWidgetT rWidgetU (by decide) (by decide) (by decide) (by decide)
  exact ⟨by decide, by decide, by decide, by decide, h.1⟩

/-- C3: if newResource fails, the resolve operation returns that error and the
cache (both tables) is unchanged, so nothing is memoized; after the collaborators
are fixed, the very next call for the same key performs full construction and
succeeds. -/
theorem C3_failure_not_memoized (c : clientCache) (obj : Object) :
    (∀ e : Err, findEntry obj.typeId c.resourceByType = none →
        newResource c obj false = .error e →
        getResourceByType c obj = (.error e, c)) ∧
    (∀ e : Err, findEntry obj.objectKindGVK c.unstructuredResourceByGVK = none →
        newResource c obj true = .error e →
        getUnstructuredResourceByGVK c obj = (.error e, c)) ∧
    (∀ (e2 : Env) (r : resourceMeta),
        findEntry obj.typeId c.resourceByType = none →
        newResource { c with env := e2 } obj false = .ok r →
        getResourceByType { c with env := e2 } obj
          = (.ok r, { c with
              env := e2
              resourceByType := (obj.typeId, r) :: c.resourceByType })) ∧
    (∀ (e2 : Env) (r : resourceMeta),
        findEntry obj.objectKindGVK c.unstructuredResourceByGVK = none →
        newResource { c with env := e2 } obj true = .ok r →
        getUnstructuredResourceByGVK { c with env := e2 } obj
          = (.ok r, { c with
              env := e2
              unstructuredResourceByGVK :=
                (obj.objectKindGVK, r) :: c.unstructuredResourceByGVK })) := by
  refine ⟨?_, ?_, ?_, ?_⟩
  · intro e hm he
    exact getResourceByType_miss_err c obj e hm he
  · intro e hm he
    exact getUnstructuredResourceByGVK_miss_err c obj e hm he
  · intro e2 r hm hr
    exact getResourceByType_miss_ok _ obj r hm hr
  · intro e2 r hm hr
    exact getUnstructuredResourceByGVK_miss_ok _ obj r hm hr

/-- Witness for C3: a failing TypeResolver yields the error and an unchanged
cache; swapping in a working resolver makes the very next call succeed. -/
theorem C3_failure_not_memoized_witness :
    newResource cFail objWidget false = .error "no kind is registered" ∧
    findEntry objWidget.typeId cFail.resourceByType = none ∧
    getResourceByType cFail objWidget = (.error "no kind is registered", cFail) ∧
    newResource { cFail with env := envW } objWidget false = .ok rWidgetT ∧
    getResourceByType { cFail with env := envW } objWidget
      = (.ok rWidgetT, { cFail with
          env := envW
          resourceByType := [(objWidget.typeId, rWidgetT)] }) := by
  have h := C3_failure_not_memoized cFail objWidget
  exact ⟨by decide, by decide, h.1 "no kind is registered" (by decide) (by decide),
    by decide, h.2.2.1 envW rWidgetT (by decide) (by decide)⟩

/-- C4: getResource dispatches to the GVK path exactly when the object is
schema-less (Unstructured or UnstructuredList), and to the type path keyed by
the concrete runtime type otherwise. -/
theorem C4_dispatch (c : clientCache) (obj : Object) :
    ((obj.isUnstructured = true ∨ obj.isUnstructuredList = true) →
        getResource c obj = getUnstructuredResourceByGVK c obj) ∧
    (obj.isUnstructured = false → obj.isUnstructuredList = false →
        getResource c obj = getResourceByType c obj) := by
  constructor
  · intro h
    apply getResource_schemaless
    unfold isSchemaless
    rcases h with h | h <;> simp [h]
  · intro h1 h2
    apply getResource_typed
    unfold isSchemaless
    simp [h1, h2]

/-- Witness for C4: the unstructured Widget goes to the GVK path, the typed
Widget to the type path. -/
theorem C4_dispatch_witness :
    objWidgetU.isUnstructured = true ∧
    objWidget.isUnstructured = false ∧
    objWidget.isUnstructuredList = false ∧
    getResource cEmpty objWidgetU = getUnstructuredResourceByGVK cEmpty objWidgetU ∧
    getResource cEmpty objWidget = getResourceByType cEmpty objWidget := by
  refine ⟨by decide, by decide, by decide,
    (C4_dispatch cEmpty objWidgetU).1 (Or.inl (by decide)),
    (C4_dispatch cEmpty objWidget).2 (by decide) (by decide)⟩

/-- C5: during construction, if the resolved kind ends in "List" and the object
is a list container, the "List" suffix is stripped (appending it back gives the
original kind, group and version are untouched); if either condition fails, the
resolved gvk is stored unchanged. -/
theorem C5_list_suffix_stripping (c : clientCache) (obj : Object) (u : Bool)
    (gvk0 : GroupVersionKind) (r : resourceMeta)
    (hg : c.env.gvkForObject obj = .ok gvk0)
    (hr : newResource c obj u = .ok r) :
    (hasSuffix gvk0.kind "List" = true → obj.isListType = true →
        r.gvk.kind ++ "List" = gvk0.kind ∧ r.gvk.group = gvk0.group ∧
        r.gvk.version = gvk0.version) ∧
    ((hasSuffix gvk0.kind "List" = false ∨ obj.isListType = false) →
        r.gvk = gvk0) := by
  have hgvk := newResource_gvk c obj u gvk0 r hg hr
  constructor
  · intro h1 h2
    rw [h1, h2] at hgvk
    simp only [Bool.and_self, if_true] at hgvk
    rw [hgvk]
    exact ⟨strip_append_List gvk0.kind h1, rfl, rfl⟩
  · intro h
    rcases h with h | h <;> rw [h] at hgvk <;> simp at hgvk <;> exact hgvk

/-- Witness for C5: an unstructured list declaring kind "WidgetList" resolves
to resource metadata of kind "Widget". -/
theorem C5_list_suffix_stripping_witness :
    cEmpty.env.gvkForObject objWidgetListU = .ok gvkWidgetList ∧
    newResource cEmpty objWidgetListU true = .ok rWidgetU ∧
    hasSuffix gvkWidgetList.kind "List" = true ∧
    objWidgetListU.isListType = true ∧
    rWidgetU.gvk.kind ++ "List" = gvkWidgetList.kind ∧
    rWidgetU.gvk.kind = "Widget" := by
  have h := C5_list_suffix_stripping cEmpty objWidgetListU true gvkWidgetList
    rWidgetU (by decide) (by decide)
  exact ⟨by decide, by decide, by decide, by decide,
    (h.1 (by decide) (by decide)).1, by decide⟩

/-- C7: isNamespaced is false exactly when the REST mapping's scope is the
cluster/root scope, and true otherwise; it is a pure read of the record. -/
theorem C7_isNamespaced_scope (r : resourceMeta) :
    (r.isNamespaced = false ↔ r.mapping.scopeName = RESTScopeNameRoot) ∧
    (r.isNamespaced = true ↔ r.mapping.scopeName ≠ RESTScopeNameRoot) := by
  unfold resourceMeta.isNamespaced
  constructor <;> split <;> simp_all

/-- C8: getObjMeta first resolves; a resolution error is returned as is, an
accessor error is returned as is, and on success the composition of the
cache-owned resourceMeta with the instance accessor is returned; the cache
state is exactly the state getResource left (objMeta is never stored). -/
theorem C8_getObjMeta_composition (c : clientCache) (obj : Object) :
    (∀ (e : Err) (c2 : clientCache), getResource c obj = (.error e, c2) →
        getObjMeta c obj = (.error e, c2)) ∧
    (∀ (r : resourceMeta) (c2 : clientCache) (e : Err),
        getResource c obj = (.ok r, c2) → obj.accessor = .error e →
        getObjMeta c obj = (.error e, c2)) ∧
    (∀ (r : resourceMeta) (c2 : clientCache) (m : V1Object),
        getResource c obj = (.ok r, c2) → obj.accessor = .ok m →
        getObjMeta c obj = (.ok { resourceMeta := r, Object := m }, c2)) := by
  refine ⟨?_, ?_, ?_⟩
  · intro e c2 h
    unfold getObjMeta
    rw [h]
  · intro r c2 e h ha
    unfold getObjMeta
    rw [h, ha]
  · intro r c2 m h ha
    unfold getObjMeta
    rw [h, ha]

/-- Witness for C8: a typed Widget with an accessor composes; an object without
the accessor capability fails with the accessor error after resolving. -/
theorem C8_getObjMeta_composition_witness :
    getResource cPrimed objWidget = (.ok rWidgetT, cPrimed) ∧
    objWidget.accessor = .ok { id := 7 } ∧
    getObjMeta cPrimed objWidget
      = (.ok { resourceMeta := rWidgetT, Object := { id := 7 } }, cPrimed) := by
  have hd : getResource cPrimed objWidget = getResourceByType cPrimed objWidget :=
    getResource_typed cPrimed objWidget (by decide)
  have hres : getResource cPrimed objWidget = (.ok rWidgetT, cPrimed) := by
    rw [hd]
    exact getResourceByType_hit cPrimed objWidget rWidgetT (by decide)
  exact ⟨hres, by decide,
    (C8_getObjMeta_composition cPrimed objWidget).2.2 rWidgetT cPrimed
      { id := 7 } hres (by decide)⟩

/-- C6: the two tables are fully independent: a schema-less resolution never
reads or writes the type table, a typed resolution never reads or writes the
GVK table, and over every sequence of resolve operations each table equals the
table produced by the operations of its own path alone. -/
theorem C6_table_independence (c : clientCache) (objs : List Object) :
    (∀ obj : Object, isSchemaless obj = true →
        ((getResource c obj).2).resourceByType = c.resourceByType) ∧
    (∀ obj : Object, isSchemaless obj = false →
        ((getResource c obj).2).unstructuredResourceByGVK
          = c.unstructuredResourceByGVK) ∧
    (runResolveAll c objs).resourceByType
      = (runResolveAll c (objs.filter (fun o => !isSchemaless o))).resourceByType ∧
    (runResolveAll c objs).unstructuredResourceByGVK
      = (runResolveAll c
          (objs.filter (fun o => isSchemaless o))).unstructuredResourceByGVK := by
  refine ⟨?_, ?_, runResolveAll_typed_table objs c c rfl rfl,
    runResolveAll_gvk_table objs c c rfl rfl⟩
  · intro obj hs
    rw [getResource_schemaless c obj hs]
    exact (getUnstructuredResourceByGVK_preserves_typeTable c obj).1
  · intro obj hs
    rw [getResource_typed c obj hs]
    exact (getResourceByType_preserves_gvkTable c obj).1

/-- Witness for C6: a GVK-path insert for the unstructured Widget leaves the
type table empty, and mixed sequences project onto their own paths. -/
theorem C6_table_independence_witness :
    isSchemaless objWidgetU = true ∧
    isSchemaless objWidget = false ∧
    ((getResource cEmpty objWidgetU).2).resourceByType = cEmpty.resourceByType ∧
    ((getResource cEmpty objWidget).2).unstructuredResourceByGVK
      = cEmpty.unstructuredResourceByGVK ∧
    (runResolveAll cEmpty [objWidgetU, objWidget]).resourceByType
      = (runResolveAll cEmpty
          ([objWidgetU, objWidget].filter (fun o => !isSchemaless o))).resourceByType := by
  have h := C6_table_independence cEmpty [objWidgetU, objWidget]
  exact ⟨by decide, by decide, h.1 objWidgetU (by decide),
    h.2.1 objWidget (by decide), h.2.2.1⟩

/-- C9: two threads racing on a first-time resolution of the same
previously-unseen key (with the same resolver observations for both objects
and the same factory/config, under which both constructions produce the same
record r): under every interleaving of the atomic probe and critical sections,
each thread that misses performs full construction once, both callers obtain
the fully constructed record r, the table ends up holding r under the key no
matter which insert ran last, and the environment is untouched. -/
theorem C9_concurrent_first_resolution (c : clientCache) (o1 o2 : Object)
    (r : resourceMeta) (sched : List RaceStep)
    (hk : o2.typeId = o1.typeId)
    (hg : c.env.gvkForObject o2 = c.env.gvkForObject o1)
    (hl : o2.isListType = o1.isListType)
    (hm : findEntry o1.typeId c.resourceByType = none)
    (h1 : newResource c o1 false = .ok r)
    (hs : sched ∈ raceSchedules) :
    (runRace o1 o2 c sched).result1 = some (.ok r) ∧
    (runRace o1 o2 c sched).result2 = some (.ok r) ∧
    findEntry o1.typeId ((runRace o1 o2 c sched).cache).resourceByType = some r ∧
    ((runRace o1 o2 c sched).cache).env = c.env := by
  have hm2 : findEntry o2.typeId c.resourceByType = none := by
    rw [hk]
    exact hm
  have h2 : newResource c o2 false = .ok r := by
    rw [newResource_congr c c o1 o2 false rfl hg hl]
    exact h1
  have h1b : ∀ t, newResource { c with resourceByType := t } o1 false = .ok r := by
    intro t
    rw [newResource_env_eq { c with resourceByType := t } c o1 false rfl]
    exact h1
  have h2b : ∀ t, newResource { c with resourceByType := t } o2 false = .ok r := by
    intro t
    rw [newResource_env_eq { c with resourceByType := t } c o2 false rfl]
    exact h2
  have hh1 : ∀ (v : resourceMeta) t,
      findEntry o1.typeId ((o1.typeId, v) :: t) = some v :=
    fun v t => findEntry_cons_self o1.typeId v t
  have hh12 : ∀ (v : resourceMeta) t,
      findEntry o2.typeId ((o1.typeId, v) :: t) = some v := by
    intro v t
    rw [hk]
    exact findEntry_cons_self o1.typeId v t
  have hh21 : ∀ (v : resourceMeta) t,
      findEntry o1.typeId ((o2.typeId, v) :: t) = some v := by
    intro v t
    rw [hk]
    exact findEntry_cons_self o1.typeId v t
  simp only [raceSchedules, List.mem_cons, List.not_mem_nil, or_false] at hs
  rcases hs with rfl | rfl | rfl | rfl | rfl | rfl <;>
    simp [runRace, List.foldl, initRaceState, raceStep, hm, hm2, h1, h2, h1b, h2b,
      hh1, hh12, hh21]

/-- Witness for C9: two instances of the typed Widget racing on the empty
cache, under the fully concurrent schedule. -/
theorem C9_concurrent_first_resolution_witness :
    objWidgetB.typeId = objWidget.typeId ∧
    cEmpty.env.gvkForObject objWidgetB = cEmpty.env.gvkForObject objWidget ∧
    objWidgetB.isListType = objWidget.isListType ∧
    findEntry objWidget.typeId cEmpty.resourceByType = none ∧
    newResource cEmpty objWidget false = .ok rWidgetT ∧
    [RaceStep.probe1, RaceStep.probe2, RaceStep.crit1, RaceStep.crit2]
      ∈ raceSchedules ∧
    (runRace objWidget objWidgetB cEmpty
        [RaceStep.probe1, RaceStep.probe2, RaceStep.crit1, RaceStep.crit2]).result1
      = some (.ok rWidgetT) ∧
    (runRace objWidget objWidgetB cEmpty
        [RaceStep.probe1, RaceStep.probe2, RaceStep.crit1, RaceStep.crit2]).result2
      = some (.ok rWidgetT) := by
  have h := C9_concurrent_first_resolution cEmpty objWidget objWidgetB rWidgetT
    [RaceStep.probe1, RaceStep.probe2, RaceStep.crit1, RaceStep.crit2]
    (by decide) (by decide) (by decide) (by decide) (by decide) (by decide)
  exact ⟨by decide, by decide, by decide, by decide, by decide, by decide,
    h.1, h.2.1⟩

/-- C10: on the GVK path the table key is the declared GVK before list-suffix
stripping while the stored record's gvk is the stripped one: a schema-less list
object declaring kind "WidgetList" is inserted under the key with kind
"WidgetList" yet the returned record carries gvk kind "Widget", and a later
GVK-path resolution of an object declaring kind "Widget" misses that entry and
constructs a separate record. -/
theorem C10_gvk_key_unstripped_record_stripped (c : clientCache) (obj : Object)
    (r : resourceMeta)
    (hm : findEntry obj.objectKindGVK c.unstructuredResourceByGVK = none)
    (hg : c.env.gvkForObject obj = .ok obj.objectKindGVK)
    (hkind : obj.objectKindGVK.kind = "WidgetList")
    (hlist : obj.isListType = true)
    (hr : newResource c obj true = .ok r) :
    getUnstructuredResourceByGVK c obj
      = (.ok r, { c with unstructuredResourceByGVK :=
          (obj.objectKindGVK, r) :: c.unstructuredResourceByGVK }) ∧
    r.gvk.kind = "Widget" ∧
    (∀ obj2 : Object,
        obj2.objectKindGVK = { obj.objectKindGVK with kind := "Widget" } →
        findEntry obj2.objectKindGVK
            ((obj.objectKindGVK, r) :: c.unstructuredResourceByGVK)
          = findEntry obj2.objectKindGVK c.unstructuredResourceByGVK) ∧
    (∀ (obj2 : Object) (r2 : resourceMeta),
        obj2.objectKindGVK = { obj.objectKindGVK with kind := "Widget" } →
        findEntry obj2.objectKindGVK c.unstructuredResourceByGVK = none →
        newResource { c with unstructuredResourceByGVK :=
            (obj.objectKindGVK, r) :: c.unstructuredResourceByGVK } obj2 true
          = .ok r2 →
        getUnstructuredResourceByGVK
            { c with unstructuredResourceByGVK :=
                (obj.objectKindGVK, r) :: c.unstructuredResourceByGVK } obj2
          = (.ok r2, { c with unstructuredResourceByGVK :=
              (obj2.objectKindGVK, r2) :: (obj.objectKindGVK, r) ::
                c.unstructuredResourceByGVK })) := by
  have hne : obj.objectKindGVK ≠ { obj.objectKindGVK with kind := "Widget" } := by
    intro heq
    have hkk : obj.objectKindGVK.kind = "Widget" :=
      congrArg GroupVersionKind.kind heq
    rw [hkind] at hkk
    exact absurd hkk (by decide)
  have hgvk := newResource_gvk c obj true obj.objectKindGVK r hg hr
  rw [hkind, hlist] at hgvk
  refine ⟨getUnstructuredResourceByGVK_miss_ok c obj r hm hr, ?_, ?_, ?_⟩
  · have hcond : (hasSuffix "WidgetList" "List" && true) = true := by decide
    rw [if_pos hcond] at hgvk
    have hkk : r.gvk.kind
        = ⟨List.take (("WidgetList" : String).data.length - 4)
            ("WidgetList" : String).data⟩ := by
      rw [hgvk]
    rw [hkk]
    decide
  · intro obj2 h2
    rw [h2]
    exact findEntry_cons_ne _ obj.objectKindGVK r c.unstructuredResourceByGVK hne
  · intro obj2 r2 h2 hm2 hr2
    have hmiss : findEntry obj2.objectKindGVK
        ((obj.objectKindGVK, r) :: c.unstructuredResourceByGVK) = none := by
      rw [h2]
      rw [findEntry_cons_ne _ obj.objectKindGVK r c.unstructuredResourceByGVK hne]
      rw [← h2]
      exact hm2
    exact getUnstructuredResourceByGVK_miss_ok _ obj2 r2 hmiss hr2

/-- Witness for C10: the unstructured WidgetList on the empty cache. -/
theorem C10_gvk_key_unstripped_record_stripped_witness :
    findEntry objWidgetListU.objectKindGVK cEmpty.unstructuredResourceByGVK
      = none ∧
    cEmpty.env.gvkForObject objWidgetListU = .ok objWidgetListU.objectKindGVK ∧
    objWidgetListU.objectKindGVK.kind = "WidgetList" ∧
    objWidgetListU.isListType = true ∧
    newResource cEmpty objWidgetListU true = .ok rWidgetU ∧
    rWidgetU.gvk.kind = "Widget" := by
  have h := C10_gvk_key_unstripped_record_stripped cEmpty objWidgetListU rWidgetU
    (by decide) (by decide) (by decide) (by decide) (by decide)
  exact ⟨by decide, by decide, by decide, by decide, by decide, h.2.1⟩

end Client
